import Mathlib

/-!
Shallow embedding of the IPC surveillance application's permission,
validation and compliance logic, together with theorems checking the
natural-language specification against the code.

Sources embedded here:
* `src/types/database.ts` — enumerations and record shapes;
* `src/components/auth/AuthProvider.tsx` — permission tables,
  `canAccessForm`, `signOut`;
* `src/components/forms/CautiForm.tsx` — `validateForm`, `handleSubmit`;
* `src/components/forms/ClabsiBundleForm.tsx` — `calculateDayNumber`,
  `calculateCompliance`, `getEnteredShifts`, `handleSubmit`;
* `src/components/forms/MdrForm.tsx` — the Zod `mdrSchema` age field.
-/

/-! ## Enumerations (src/types/database.ts) -/

/-- `DepartmentType` enum from src/types/database.ts. -/
inductive DepartmentType where
  | ICU | NICU | PICU | CCU
  | GENERAL_SURGERY | ORTHOPEDIC | CARDIAC_SURGERY | NEUROSURGERY
  | OBSTETRICS_GYNECOLOGY | PEDIATRICS | INTERNAL_MEDICINE | EMERGENCY
  | DIALYSIS | ONCOLOGY | BURNS_UNIT | LABORATORY
  | RADIOLOGY | PHARMACY | IPC_COMMITTEE
  deriving DecidableEq, Fintype, Repr

/-- `UserRole` enum from src/types/database.ts. -/
inductive UserRole where
  | ADMIN | IPC_FOCAL | IPC_OFFICER | IPC_COMMITTEE
  | DEPARTMENT_HEAD | CONSULTANT | MEDICAL_OFFICER
  | STAFF_NURSE | CHARGE_NURSE | INFECTION_CONTROL_NURSE
  | LABORATORY_TECHNICIAN | VIEWER
  deriving DecidableEq, Fintype, Repr

/-- `FormType` enum from src/types/database.ts. -/
inductive FormType where
  | CAUTI | CLABSI | CLABSI_BUNDLE | SSI | VAP | HAP
  | MDRO | C_DIFF | MRSA | VRE | ESBL
  deriving DecidableEq, Fintype, Repr

/-- `Gender` values used by the CAUTI form (`'Male' | 'Female'`). -/
inductive Gender where
  | Male | Female
  deriving DecidableEq, Repr

/-- `UserProfile` record from src/types/database.ts (fields relevant to the
embedded logic; string audit fields carried as plain strings). -/
structure UserProfile where
  id : String
  email : String
  full_name : String
  department : DepartmentType
  role : UserRole
  is_active : Option Bool
  deriving DecidableEq, Repr

/-! ## Permission tables (src/components/auth/AuthProvider.tsx, lines 76–112) -/

/-- `ROLE_FORM_PERMISSIONS` table from AuthProvider.tsx. -/
def ROLE_FORM_PERMISSIONS : UserRole → List FormType
  | .ADMIN => [.CAUTI, .CLABSI, .SSI, .VAP, .HAP, .MDRO, .C_DIFF, .MRSA, .VRE, .ESBL]
  | .IPC_FOCAL => [.CAUTI, .CLABSI, .SSI, .VAP, .HAP, .MDRO, .C_DIFF, .MRSA, .VRE, .ESBL]
  | .IPC_OFFICER => [.CAUTI, .CLABSI, .SSI, .VAP, .HAP, .MDRO, .C_DIFF, .MRSA, .VRE, .ESBL]
  | .IPC_COMMITTEE => [.CAUTI, .CLABSI, .SSI, .VAP, .HAP, .MDRO, .C_DIFF, .MRSA, .VRE, .ESBL]
  | .DEPARTMENT_HEAD => [.CAUTI, .CLABSI, .SSI, .VAP, .HAP, .MDRO]
  | .CONSULTANT => [.CAUTI, .CLABSI, .SSI, .VAP, .HAP, .MDRO]
  | .MEDICAL_OFFICER => [.CAUTI, .CLABSI, .SSI, .MDRO]
  | .STAFF_NURSE => [.CAUTI, .CLABSI, .VAP]
  | .CHARGE_NURSE => [.CAUTI, .CLABSI, .VAP, .SSI]
  | .INFECTION_CONTROL_NURSE => [.CAUTI, .CLABSI, .SSI, .VAP, .HAP, .MDRO]
  | .LABORATORY_TECHNICIAN => [.MDRO, .C_DIFF, .MRSA, .VRE, .ESBL]
  | .VIEWER => []

/-- `DEPARTMENT_FORM_PERMISSIONS` table from AuthProvider.tsx. -/
def DEPARTMENT_FORM_PERMISSIONS : DepartmentType → List FormType
  | .ICU => [.CAUTI, .CLABSI, .VAP, .HAP, .MDRO]
  | .NICU => [.CLABSI, .VAP, .MDRO]
  | .PICU => [.CAUTI, .CLABSI, .VAP, .MDRO]
  | .CCU => [.CAUTI, .CLABSI, .VAP, .MDRO]
  | .GENERAL_SURGERY => [.SSI, .CAUTI, .MDRO]
  | .ORTHOPEDIC => [.SSI, .CAUTI, .MDRO]
  | .CARDIAC_SURGERY => [.SSI, .CAUTI, .CLABSI, .MDRO]
  | .NEUROSURGERY => [.SSI, .CAUTI, .MDRO]
  | .OBSTETRICS_GYNECOLOGY => [.SSI, .CAUTI, .MDRO]
  | .PEDIATRICS => [.CAUTI, .MDRO]
  | .INTERNAL_MEDICINE => [.CAUTI, .MDRO]
  | .EMERGENCY => [.CAUTI, .MDRO]
  | .DIALYSIS => [.CLABSI, .MDRO]
  | .ONCOLOGY => [.CAUTI, .CLABSI, .MDRO]
  | .BURNS_UNIT => [.SSI, .CAUTI, .MDRO]
  | .LABORATORY => [.MDRO, .C_DIFF, .MRSA, .VRE, .ESBL]
  | .RADIOLOGY => [.MDRO]
  | .PHARMACY => [.MDRO]
  | .IPC_COMMITTEE => [.CAUTI, .CLABSI, .SSI, .VAP, .HAP, .MDRO, .C_DIFF, .MRSA, .VRE, .ESBL]

/-- `hasRole` from AuthProvider.tsx: `profile?.role === role`. -/
def hasRole (profile : Option UserProfile) (role : UserRole) : Bool :=
  match profile with
  | none => false
  | some p => p.role = role

/-- `canAccessForm` from AuthProvider.tsx (lines 195–205): admins, IPC focal
and IPC officers are always allowed; otherwise the form type must appear in
both the role's and the department's static permission list. -/
def canAccessForm (profile : Option UserProfile) (formType : FormType) : Bool :=
  match profile with
  | none => false
  | some p =>
    if hasRole (some p) UserRole.ADMIN || hasRole (some p) UserRole.IPC_FOCAL
        || hasRole (some p) UserRole.IPC_OFFICER then
      true
    else
      let rolePermissions := ROLE_FORM_PERMISSIONS p.role
      let hasRolePermission := decide (formType ∈ rolePermissions)
      let departmentPermissions := DEPARTMENT_FORM_PERMISSIONS p.department
      let hasDepartmentPermission := decide (formType ∈ departmentPermissions)
      hasRolePermission && hasDepartmentPermission

/-- Access decision as a function of role, department and form type only;
`canAccessForm` on a present profile reads nothing else. -/
def accessByRoleDept (r : UserRole) (d : DepartmentType) (ft : FormType) : Bool :=
  canAccessForm (some { id := "", email := "", full_name := "",
                        department := d, role := r, is_active := some true }) ft

/-! ## CAUTI form (src/components/forms/CautiForm.tsx) -/

/-- `CautiSymptoms` from src/types/database.ts: the eight symptom flags. -/
structure CautiSymptoms where
  fever : Bool
  rigors : Bool
  hypotension : Bool
  confusion_with_leukocytosis : Bool
  costovertebral_pain : Bool
  suprapubic_tenderness : Bool
  testes_epididymis_prostate_pain : Bool
  purulent_discharge : Bool
  deriving DecidableEq, Repr

/-- `CautiLaboratoryFindings` as held in the CAUTI form state: only the three
boolean flags of `initialState.laboratory_findings` are ever present on the
object (the optional string fields are never set by the form), so
`Object.values(...)`(CautiForm.tsx line 55) ranges over exactly these three. -/
structure CautiLaboratoryFindings where
  clean_catch_voided : Bool
  straight_catheter_specimen : Bool
  iuc_specimen : Bool
  deriving DecidableEq, Repr

/-- `CautiSurveillanceInsert` as populated by the CAUTI form: the fields of
`initialState` (CautiForm.tsx lines 20–26) plus `submitted_by`, which the
submit handler stamps. Empty strings model empty inputs; dates are carried as
the `YYYY-MM-DD` strings the date inputs produce. -/
structure CautiSurveillanceInsert where
  surveillance_date : String
  patient_name : String
  hospital_id : String
  ward_bed_number : String
  department : DepartmentType
  age : Int
  gender : Option Gender
  catheter_insertion_date : String
  reason_for_catheter : String
  symptoms : CautiSymptoms
  laboratory_findings : CautiLaboratoryFindings
  notes : String
  submitted_by : Option String
  deriving DecidableEq, Repr

/-- `Object.values(formData.symptoms).some(v => v === true)` from
CautiForm.tsx line 52. -/
def anySymptomTrue (s : CautiSymptoms) : Bool :=
  s.fever || s.rigors || s.hypotension || s.confusion_with_leukocytosis ||
  s.costovertebral_pain || s.suprapubic_tenderness ||
  s.testes_epididymis_prostate_pain || s.purulent_discharge

/-- `Object.values(formData.laboratory_findings).some(v => v === true)` from
CautiForm.tsx line 55. -/
def anyLabTrue (l : CautiLaboratoryFindings) : Bool :=
  l.clean_catch_voided || l.straight_catheter_specimen || l.iuc_specimen

/-- `validateForm` from CautiForm.tsx lines 48–59. `some msg` models
`setError(msg); return false`; `none` models `return true`. A JS string is
falsy exactly when it is empty. -/
def validateForm (f : CautiSurveillanceInsert) : Option String :=
  if f.patient_name = "" ∨ f.hospital_id = "" ∨ f.ward_bed_number = "" ∨
      f.catheter_insertion_date = "" then
    some "Please fill in all required patient and catheter information."
  else if anySymptomTrue f.symptoms = false then
    some "Please select at least one sign or symptom."
  else if anyLabTrue f.laboratory_findings = false then
    some "Please select at least one laboratory finding."
  else
    none

/-- The required-field guard of `validateForm` passes. -/
def cautiRequiredPresent (f : CautiSurveillanceInsert) : Prop :=
  f.patient_name ≠ "" ∧ f.hospital_id ≠ "" ∧ f.ward_bed_number ≠ "" ∧
  f.catheter_insertion_date ≠ ""

instance (f : CautiSurveillanceInsert) : Decidable (cautiRequiredPresent f) := by
  unfold cautiRequiredPresent; infer_instance

/-- `handleSubmit` from CautiForm.tsx lines 61–90, as the insertion payload it
hands to the remote store: `none` when the submission is blocked (missing
profile/user or validation failure), `some payload` when the insert call is
issued with `payload`. The payload is the form state with `submitted_by` and
`department` overwritten from the submitter's profile (lines 73–77). -/
def cautiHandleSubmit (user : Option String) (profile : Option UserProfile)
    (formData : CautiSurveillanceInsert) : Option CautiSurveillanceInsert :=
  match profile, user with
  | some p, some _ =>
    match validateForm formData with
    | some _ => none
    | none => some { formData with submitted_by := some p.id, department := p.department }
  | _, _ => none

/-! ## CLABSI bundle form (src/components/forms/ClabsiBundleForm.tsx)

Date-valued inputs hold `YYYY-MM-DD` strings, which `new Date(...)` parses to
a UTC-midnight timestamp; a valid date string is modelled by that timestamp in
milliseconds (an integer multiple of 86400000) and the empty string by
`none`. -/

/-- `ShiftType` from src/types/clabsi.ts: Morning, Afternoon, Night. -/
inductive ShiftType where
  | M | A | N
  deriving DecidableEq, Repr

/-- `DischargeType` from src/types/clabsi.ts. -/
inductive DischargeType where
  | discharged | deceased | transferred
  deriving DecidableEq, Repr

/-- The `ShiftType` string value interpolated into messages. -/
def shiftLabel : ShiftType → String
  | .M => "M"
  | .A => "A"
  | .N => "N"

/-- `ClabsiFormData` from ClabsiBundleForm.tsx lines 16–30; `none` models an
empty (`''`) date or shift selection. -/
structure ClabsiFormData where
  patientId : String
  admissionDate : Option Int
  admissionShift : Option ShiftType
  dischargeDate : Option Int
  dischargeShift : Option ShiftType
  dischargeType : Option DischargeType
  entryDate : Option Int
  shift : Option ShiftType
  skinPrep2CHG : Bool
  dressingChangeDaily : Bool
  patencyLumens : Bool
  hubCareAlcohol : Bool
  ivTubingChangeDaily : Bool
  deriving DecidableEq, Repr

/-- A saved `ClabsiEntry` row (src/types/clabsi.ts), as loaded from the
remote store. -/
structure ClabsiEntry where
  id : String
  patient_id : String
  admission_date : Int
  admission_shift : ShiftType
  discharge_date : Option Int
  discharge_shift : Option ShiftType
  discharge_type : Option DischargeType
  entry_date : Int
  shift : ShiftType
  day_number : Nat
  skin_prep_2chg : Bool
  dressing_change_daily : Bool
  patency_lumens : Bool
  hub_care_alcohol : Bool
  iv_tubing_change_daily : Bool
  compliance_score : Int
  created_by : String
  department : DepartmentType
  nurse_name : String
  deriving DecidableEq, Repr

/-- `ClabsiEntryInsert` (src/types/clabsi.ts) carrying the runtime values the
bundle form actually passes (dates and shifts exactly as held in the form
state). -/
structure ClabsiEntryInsert where
  patient_id : String
  admission_date : Option Int
  admission_shift : Option ShiftType
  discharge_date : Option Int
  discharge_shift : Option ShiftType
  discharge_type : Option DischargeType
  entry_date : Option Int
  shift : Option ShiftType
  day_number : Nat
  skin_prep_2chg : Bool
  dressing_change_daily : Bool
  patency_lumens : Bool
  hub_care_alcohol : Bool
  iv_tubing_change_daily : Bool
  compliance_score : Int
  created_by : String
  department : DepartmentType
  nurse_name : String
  deriving DecidableEq, Repr

/-- Milliseconds per day, the divisor in `calculateDayNumber`. -/
def msPerDay : Nat := 1000 * 60 * 60 * 24

/-- `Math.ceil (n / d)` for non-negative integer `n` and positive `d`. -/
def natCeilDiv (n d : Nat) : Nat := (n + d - 1) / d

/-- `calculateDayNumber` from ClabsiBundleForm.tsx lines 131–136:
`Math.ceil(|entry - admission| ms / 86400000) + 1`, or 1 when either date is
empty. -/
def calculateDayNumber (admissionDate entryDate : Option Int) : Nat :=
  match admissionDate, entryDate with
  | some a, some e => natCeilDiv (e - a).natAbs msPerDay + 1
  | _, _ => 1

/-- `Math.round` on an exact rational: round half away from zero is
`⌊q + 1/2⌋` for the non-negative values arising here. All compliance ratios
are exact multiples of 20 or 25 percent, so double-precision evaluation in JS
agrees with this exact model. -/
def jsRound (q : ℚ) : Int := ⌊q + 1 / 2⌋

/-- `calculateCompliance` from ClabsiBundleForm.tsx lines 146–157: the
skin-prep component counts only on day 1; the denominator is 5 on day 1 and 4
otherwise. -/
def calculateCompliance (f : ClabsiFormData) : Int :=
  let dayOne : Bool := calculateDayNumber f.admissionDate f.entryDate == 1
  let total : Nat := if dayOne then 5 else 4
  let completed : Nat :=
    (if dayOne && f.skinPrep2CHG then 1 else 0) +
    (if f.dressingChangeDaily then 1 else 0) +
    (if f.patencyLumens then 1 else 0) +
    (if f.hubCareAlcohol then 1 else 0) +
    (if f.ivTubingChangeDaily then 1 else 0)
  if 0 < total then jsRound ((completed : ℚ) / (total : ℚ) * 100) else 0

/-- The spec's applicable denominator: 5 components on day 1, 4 afterwards. -/
def applicableDenominator (f : ClabsiFormData) : Nat :=
  if calculateDayNumber f.admissionDate f.entryDate == 1 then 5 else 4

/-- The spec's completed-component count: checked components among the
applicable ones (skin-prep applicable only on day 1). -/
def completedComponents (f : ClabsiFormData) : Nat :=
  (if (calculateDayNumber f.admissionDate f.entryDate == 1) && f.skinPrep2CHG then 1 else 0) +
  (if f.dressingChangeDaily then 1 else 0) +
  (if f.patencyLumens then 1 else 0) +
  (if f.hubCareAlcohol then 1 else 0) +
  (if f.ivTubingChangeDaily then 1 else 0)

/-- `getEnteredShifts` from ClabsiBundleForm.tsx line 144: shifts of saved
entries matching the form's patient id and entry date. -/
def getEnteredShifts (savedEntries : List ClabsiEntry) (f : ClabsiFormData) : List ShiftType :=
  (savedEntries.filter
    (fun e => decide (e.patient_id = f.patientId) && decide (some e.entry_date = f.entryDate))).map
    (fun e => e.shift)

/-- Outcome of the bundle form's submit handler: a rejection message shown in
the modal, or the row handed to the remote insert call. -/
inductive BundleSubmitOutcome where
  | rejected (message : String)
  | inserted (entry : ClabsiEntryInsert)
  deriving DecidableEq, Repr

/-- `handleSubmit` from ClabsiBundleForm.tsx lines 164–194: required-field
guard, then the duplicate (patient, date, shift) guard against the loaded
entries, then the insert with computed day number and compliance score.
`userId`, `profileDepartment` and `userName` are `user!.id`,
`profile!.department` and `userName` at line 180. -/
def bundleHandleSubmit (savedEntries : List ClabsiEntry) (f : ClabsiFormData)
    (userId : String) (profileDepartment : DepartmentType) (userName : String) :
    BundleSubmitOutcome :=
  if f.patientId = "" ∨ f.entryDate = none ∨ f.shift = none ∨
      f.admissionDate = none ∨ f.admissionShift = none then
    .rejected "Please fill all required fields."
  else if (getEnteredShifts savedEntries f).any (fun sh => decide (some sh = f.shift)) then
    .rejected ("Entry for " ++ (match f.shift with | some sh => shiftLabel sh | none => "") ++
      " shift on this date already exists.")
  else
    .inserted {
      patient_id := f.patientId, admission_date := f.admissionDate,
      admission_shift := f.admissionShift,
      discharge_date := f.dischargeDate, discharge_shift := f.dischargeShift,
      discharge_type := f.dischargeType,
      entry_date := f.entryDate, shift := f.shift,
      day_number := calculateDayNumber f.admissionDate f.entryDate,
      skin_prep_2chg := f.skinPrep2CHG, dressing_change_daily := f.dressingChangeDaily,
      patency_lumens := f.patencyLumens, hub_care_alcohol := f.hubCareAlcohol,
      iv_tubing_change_daily := f.ivTubingChangeDaily,
      compliance_score := calculateCompliance f,
      created_by := userId, department := profileDepartment, nurse_name := userName }

/-! ## Sign-out (src/components/auth/AuthProvider.tsx, lines 173–187) -/

/-- The provider state touched by `signOut`. -/
structure AuthState where
  user : Option String
  profile : Option UserProfile
  loading : Bool
  error : Option String
  deriving DecidableEq, Repr

/-- Primitive effects performed by `signOut`, in program order. The remote
call and the navigation do not mutate provider state. -/
inductive SignOutEvent where
  | setLoading (b : Bool)
  | setUser (u : Option String)
  | setProfile (p : Option UserProfile)
  | setError (e : Option String)
  | remoteSignOutCall (ok : Bool)
  | redirect (path : String)
  deriving DecidableEq, Repr

/-- Effect of one `signOut` event on the provider state. -/
def applyEvent (s : AuthState) : SignOutEvent → AuthState
  | .setLoading b => { s with loading := b }
  | .setUser u => { s with user := u }
  | .setProfile p => { s with profile := p }
  | .setError e => { s with error := e }
  | .remoteSignOutCall _ => s
  | .redirect _ => s

/-- The event sequence of `signOut` (AuthProvider.tsx lines 173–187): the
state is cleared synchronously, then the remote sign-out call is awaited; on
success the try block navigates to `/login`, on failure the catch block does;
the finally block clears the loading flag. -/
def signOutTrace (remoteFails : Bool) : List SignOutEvent :=
  [.setLoading true, .setUser none, .setProfile none, .setError none,
   .remoteSignOutCall (!remoteFails), .redirect "/login", .setLoading false]

/-- Run `signOut` from an arbitrary starting state. -/
def runSignOut (s : AuthState) (remoteFails : Bool) : AuthState :=
  (signOutTrace remoteFails).foldl applyEvent s

/-- Whether an event is the navigation to the login page. -/
def isRedirectEvent : SignOutEvent → Bool
  | .redirect _ => true
  | _ => false

/-- The prefix of the `signOut` event sequence that runs before any
navigation occurs. -/
def beforeRedirect (remoteFails : Bool) : List SignOutEvent :=
  (signOutTrace remoteFails).takeWhile (fun e => !isRedirectEvent e)

/-! ## MDRO form age field (src/components/forms/MdrForm.tsx, mdrSchema)

`age: z.coerce.number().default(0).refine(n => n >= 0, "Age cannot be
negative")`. The Zod pipeline: an `undefined` input is replaced by the
default `0`; any other input is coerced with JS `Number(...)`; a coercion
result of NaN fails the number check; otherwise the refinement rejects
negative values. -/

/-- Abstraction of the runtime value react-hook-form hands the schema for the
age field: `undef` when the field is absent, `numStr q` for a string that JS
`Number(...)` coerces to the finite number `q` (the empty string coerces to
0), `malformed` for a string coercing to NaN. -/
inductive AgeInput where
  | undef
  | numStr (q : ℚ)
  | malformed
  deriving DecidableEq, Repr

/-- JS `Number(...)` on an age input at this abstraction; `none` is NaN. -/
def jsNumber : AgeInput → Option ℚ
  | .undef => none
  | .numStr q => some q
  | .malformed => none

/-- The `mdrSchema` age pipeline (MdrForm.tsx line 20): default, coerce,
refine. -/
def mdrAgeParse (v : AgeInput) : Except String ℚ :=
  let coerced : Option ℚ :=
    match v with
    | .undef => some 0
    | w => jsNumber w
  match coerced with
  | none => Except.error "Expected number, received nan"
  | some q => if 0 ≤ q then Except.ok q else Except.error "Age cannot be negative"

/-! # Theorems -/

/-! ## Helper lemmas -/

theorem canAccessForm_eq_accessByRoleDept (p : UserProfile) (ft : FormType) :
    canAccessForm (some p) ft = accessByRoleDept p.role p.department ft := by
  cases p; rfl

theorem accessByRoleDept_spec :
    ∀ (r : UserRole) (d : DepartmentType) (ft : FormType),
      accessByRoleDept r d ft = true ↔
        (r = UserRole.ADMIN ∨ r = UserRole.IPC_FOCAL ∨ r = UserRole.IPC_OFFICER) ∨
        (ft ∈ ROLE_FORM_PERMISSIONS r ∧ ft ∈ DEPARTMENT_FORM_PERMISSIONS d) := by
  decide

/-! ## Claim theorems -/

/-- C1: for every profile (role and department always present in the model)
and every form type, `canAccessForm` returns true iff the role is ADMIN,
IPC_FOCAL or IPC_OFFICER, or the form type lies in both the role's and the
department's static permission list; moreover the STAFF_NURSE list is exactly
{CAUTI, CLABSI, VAP}, so a STAFF_NURSE in ICU is denied the MDRO form. -/
theorem c1_canAccessForm_iff :
    (∀ (p : UserProfile) (ft : FormType),
      canAccessForm (some p) ft = true ↔
        (p.role = UserRole.ADMIN ∨ p.role = UserRole.IPC_FOCAL ∨
          p.role = UserRole.IPC_OFFICER) ∨
        (ft ∈ ROLE_FORM_PERMISSIONS p.role ∧
          ft ∈ DEPARTMENT_FORM_PERMISSIONS p.department)) ∧
    ROLE_FORM_PERMISSIONS UserRole.STAFF_NURSE =
      [FormType.CAUTI, FormType.CLABSI, FormType.VAP] ∧
    canAccessForm
      (some { id := "p1", email := "n@h", full_name := "N",
              department := DepartmentType.ICU, role := UserRole.STAFF_NURSE,
              is_active := some true }) FormType.MDRO = false := by
  refine ⟨fun p ft => ?_, rfl, by decide⟩
  rw [canAccessForm_eq_accessByRoleDept]
  exact accessByRoleDept_spec p.role p.department ft

/-- C8: `canAccessForm` fails closed, returning false for every form type
when the profile is absent; and it is side-effect free, its result depending
only on the profile's role and department and the form type (the embedding is
a pure function of its arguments). -/
theorem c8_canAccessForm_fails_closed :
    (∀ ft : FormType, canAccessForm none ft = false) ∧
    (∀ (p q : UserProfile) (ft : FormType), p.role = q.role →
      p.department = q.department →
      canAccessForm (some p) ft = canAccessForm (some q) ft) := by
  refine ⟨fun ft => rfl, fun p q ft hr hd => ?_⟩
  rw [canAccessForm_eq_accessByRoleDept, canAccessForm_eq_accessByRoleDept, hr, hd]

/-- Witness for C8 at a concrete pair of profiles differing only in
irrelevant fields. -/
theorem c8_canAccessForm_fails_closed_witness :
    canAccessForm
      (some { id := "a", email := "a@h", full_name := "A",
              department := DepartmentType.ICU, role := UserRole.STAFF_NURSE,
              is_active := some true }) FormType.CAUTI =
    canAccessForm
      (some { id := "b", email := "b@h", full_name := "B",
              department := DepartmentType.ICU, role := UserRole.STAFF_NURSE,
              is_active := none }) FormType.CAUTI :=
  c8_canAccessForm_fails_closed.2
    { id := "a", email := "a@h", full_name := "A",
      department := DepartmentType.ICU, role := UserRole.STAFF_NURSE,
      is_active := some true }
    { id := "b", email := "b@h", full_name := "B",
      department := DepartmentType.ICU, role := UserRole.STAFF_NURSE,
      is_active := none }
    FormType.CAUTI rfl rfl

/-- C9: CLABSI_BUNDLE appears in no role permission list and no department
permission list, so a present profile can access it exactly when its role is
ADMIN, IPC_FOCAL or IPC_OFFICER. -/
theorem c9_clabsi_bundle_privileged_only :
    (∀ r : UserRole, FormType.CLABSI_BUNDLE ∉ ROLE_FORM_PERMISSIONS r) ∧
    (∀ d : DepartmentType, FormType.CLABSI_BUNDLE ∉ DEPARTMENT_FORM_PERMISSIONS d) ∧
    (∀ p : UserProfile,
      canAccessForm (some p) FormType.CLABSI_BUNDLE = true ↔
        (p.role = UserRole.ADMIN ∨ p.role = UserRole.IPC_FOCAL ∨
          p.role = UserRole.IPC_OFFICER)) := by
  refine ⟨by decide, by decide, fun p => ?_⟩
  rw [canAccessForm_eq_accessByRoleDept]
  have h := accessByRoleDept_spec p.role p.department FormType.CLABSI_BUNDLE
  have hrole : FormType.CLABSI_BUNDLE ∉ ROLE_FORM_PERMISSIONS p.role :=
    (by decide : ∀ r : UserRole, FormType.CLABSI_BUNDLE ∉ ROLE_FORM_PERMISSIONS r) p.role
  constructor
  · intro hacc
    rcases h.mp hacc with hp | ⟨hr, _⟩
    · exact hp
    · exact absurd hr hrole
  · intro hp
    exact h.mpr (Or.inl hp)

/-- C2: a CAUTI submission with every symptom flag false is always rejected by
`validateForm` (whatever the other fields) and produces no insertion payload;
a submission passes validation only if at least one symptom flag and at least
one laboratory-finding flag are true; and when only one category is missing
the error names that category. -/
theorem c2_cauti_symptom_lab_validation :
    ∀ (f : CautiSurveillanceInsert) (user : Option String) (profile : Option UserProfile),
      (anySymptomTrue f.symptoms = false →
        (validateForm f).isSome = true ∧ cautiHandleSubmit user profile f = none) ∧
      (validateForm f = none →
        anySymptomTrue f.symptoms = true ∧ anyLabTrue f.laboratory_findings = true) ∧
      (cautiRequiredPresent f → anySymptomTrue f.symptoms = false →
        validateForm f = some "Please select at least one sign or symptom.") ∧
      (cautiRequiredPresent f → anySymptomTrue f.symptoms = true →
        anyLabTrue f.laboratory_findings = false →
        validateForm f = some "Please select at least one laboratory finding.") := by
  intro f user profile
  refine ⟨fun hsym => ⟨?_, ?_⟩, fun hval => ?_, fun hreq hsym => ?_, fun hreq hsym hlab => ?_⟩
  · unfold validateForm
    split <;> simp [hsym]
  · have hv : (validateForm f).isSome = true := by
      unfold validateForm
      split <;> simp [hsym]
    unfold cautiHandleSubmit
    match profile, user with
    | some p, some u =>
      cases hv' : validateForm f with
      | none => rw [hv'] at hv; exact absurd hv (by simp)
      | some msg => simp [hv']
    | some p, none => rfl
    | none, _ => rfl
  · unfold validateForm at hval
    split at hval
    · exact absurd hval (by simp)
    · split at hval
      · exact absurd hval (by simp)
      · split at hval
        · exact absurd hval (by simp)
        · constructor
          · rename_i h1 h2 h3
            cases hs : anySymptomTrue f.symptoms with
            | false => exact absurd hs h2
            | true => rfl
          · rename_i h1 h2 h3
            cases hl : anyLabTrue f.laboratory_findings with
            | false => exact absurd hl h3
            | true => rfl
  · unfold validateForm
    rw [if_neg, hsym, if_pos rfl]
    rcases hreq with ⟨h1, h2, h3, h4⟩
    intro hor
    rcases hor with h | h | h | h
    · exact h1 h
    · exact h2 h
    · exact h3 h
    · exact h4 h
  · unfold validateForm
    rw [if_neg, hsym, hlab]
    · rfl
    rcases hreq with ⟨h1, h2, h3, h4⟩
    intro hor
    rcases hor with h | h | h | h
    · exact h1 h
    · exact h2 h
    · exact h3 h
    · exact h4 h

/-- Witness for C2 at a concrete form with all required fields filled and all
symptom flags false: validation reports the missing symptom category and no
payload is produced. -/
theorem c2_cauti_symptom_lab_validation_witness :
    validateForm
      { surveillance_date := "2024-01-02", patient_name := "P",
        hospital_id := "H1", ward_bed_number := "W1",
        department := DepartmentType.ICU, age := 40, gender := some Gender.Male,
        catheter_insertion_date := "2024-01-01", reason_for_catheter := "r",
        symptoms := { fever := false, rigors := false, hypotension := false,
                      confusion_with_leukocytosis := false,
                      costovertebral_pain := false, suprapubic_tenderness := false,
                      testes_epididymis_prostate_pain := false,
                      purulent_discharge := false },
        laboratory_findings := { clean_catch_voided := true,
                                 straight_catheter_specimen := false,
                                 iuc_specimen := false },
        notes := "", submitted_by := none } =
      some "Please select at least one sign or symptom." ∧
    cautiHandleSubmit (some "u1")
      (some { id := "p1", email := "n@h", full_name := "N",
              department := DepartmentType.ICU, role := UserRole.ADMIN,
              is_active := some true })
      { surveillance_date := "2024-01-02", patient_name := "P",
        hospital_id := "H1", ward_bed_number := "W1",
        department := DepartmentType.ICU, age := 40, gender := some Gender.Male,
        catheter_insertion_date := "2024-01-01", reason_for_catheter := "r",
        symptoms := { fever := false, rigors := false, hypotension := false,
                      confusion_with_leukocytosis := false,
                      costovertebral_pain := false, suprapubic_tenderness := false,
                      testes_epididymis_prostate_pain := false,
                      purulent_discharge := false },
        laboratory_findings := { clean_catch_voided := true,
                                 straight_catheter_specimen := false,
                                 iuc_specimen := false },
        notes := "", submitted_by := none } = none := by
  constructor
  · exact (c2_cauti_symptom_lab_validation _ (some "u1") none).2.2.1
      (by decide) (by decide)
  · exact ((c2_cauti_symptom_lab_validation _ (some "u1")
      (some { id := "p1", email := "n@h", full_name := "N",
              department := DepartmentType.ICU, role := UserRole.ADMIN,
              is_active := some true })).1 (by decide)).2

/-- C10: every payload the CAUTI submit handler passes to the insert call has
`submitted_by` equal to the submitter's profile id and `department` equal to
the submitter's profile department, and carries every other form-state field
unchanged. -/
theorem c10_cauti_payload_stamping :
    ∀ (user : Option String) (p : UserProfile)
      (f payload : CautiSurveillanceInsert),
      cautiHandleSubmit user (some p) f = some payload →
        payload.submitted_by = some p.id ∧
        payload.department = p.department ∧
        payload.surveillance_date = f.surveillance_date ∧
        payload.patient_name = f.patient_name ∧
        payload.hospital_id = f.hospital_id ∧
        payload.ward_bed_number = f.ward_bed_number ∧
        payload.age = f.age ∧
        payload.gender = f.gender ∧
        payload.catheter_insertion_date = f.catheter_insertion_date ∧
        payload.reason_for_catheter = f.reason_for_catheter ∧
        payload.symptoms = f.symptoms ∧
        payload.laboratory_findings = f.laboratory_findings ∧
        payload.notes = f.notes := by
  intro user p f payload h
  unfold cautiHandleSubmit at h
  match user with
  | none => exact absurd h (by simp)
  | some u =>
    cases hv : validateForm f with
    | some msg => rw [hv] at h; exact absurd h (by simp)
    | none =>
      rw [hv] at h
      have hp : payload = { f with submitted_by := some p.id, department := p.department } :=
        (Option.some.injEq _ _ ▸ h).symm
      subst hp
      exact ⟨rfl, rfl, rfl, rfl, rfl, rfl, rfl, rfl, rfl, rfl, rfl, rfl, rfl⟩

/-- Witness for C10 at a concrete valid submission: the produced payload is
the form state with `submitted_by` and `department` stamped from the
profile. -/
theorem c10_cauti_payload_stamping_witness :
    ({ surveillance_date := "2024-01-02", patient_name := "P",
       hospital_id := "H1", ward_bed_number := "W1",
       department := DepartmentType.EMERGENCY, age := 40,
       gender := some Gender.Female,
       catheter_insertion_date := "2024-01-01", reason_for_catheter := "r",
       symptoms := { fever := true, rigors := false, hypotension := false,
                     confusion_with_leukocytosis := false,
                     costovertebral_pain := false, suprapubic_tenderness := false,
                     testes_epididymis_prostate_pain := false,
                     purulent_discharge := false },
       laboratory_findings := { clean_catch_voided := true,
                                straight_catheter_specimen := false,
                                iuc_specimen := false },
       notes := "n", submitted_by := some "prof-9" } :
      CautiSurveillanceInsert).submitted_by = some "prof-9" ∧
    ({ surveillance_date := "2024-01-02", patient_name := "P",
       hospital_id := "H1", ward_bed_number := "W1",
       department := DepartmentType.EMERGENCY, age := 40,
       gender := some Gender.Female,
       catheter_insertion_date := "2024-01-01", reason_for_catheter := "r",
       symptoms := { fever := true, rigors := false, hypotension := false,
                     confusion_with_leukocytosis := false,
                     costovertebral_pain := false, suprapubic_tenderness := false,
                     testes_epididymis_prostate_pain := false,
                     purulent_discharge := false },
       laboratory_findings := { clean_catch_voided := true,
                                straight_catheter_specimen := false,
                                iuc_specimen := false },
       notes := "n", submitted_by := some "prof-9" } :
      CautiSurveillanceInsert).department = DepartmentType.EMERGENCY :=
  let prof : UserProfile :=
    { id := "prof-9", email := "n@h", full_name := "N",
      department := DepartmentType.EMERGENCY, role := UserRole.ADMIN,
      is_active := some true }
  let form : CautiSurveillanceInsert :=
    { surveillance_date := "2024-01-02", patient_name := "P",
      hospital_id := "H1", ward_bed_number := "W1",
      department := DepartmentType.ICU, age := 40,
      gender := some Gender.Female,
      catheter_insertion_date := "2024-01-01", reason_for_catheter := "r",
      symptoms := { fever := true, rigors := false, hypotension := false,
                    confusion_with_leukocytosis := false,
                    costovertebral_pain := false, suprapubic_tenderness := false,
                    testes_epididymis_prostate_pain := false,
                    purulent_discharge := false },
      laboratory_findings := { clean_catch_voided := true,
                               straight_catheter_specimen := false,
                               iuc_specimen := false },
      notes := "n", submitted_by := none }
  have h := c10_cauti_payload_stamping (some "u1") prof form
    { form with submitted_by := some "prof-9",
                department := DepartmentType.EMERGENCY } (by decide)
  ⟨h.1, h.2.1⟩

theorem natCeilDiv_mul_self (n d : Nat) (hd : 0 < d) : natCeilDiv (n * d) d = n := by
  unfold natCeilDiv
  have hk : ∀ k : Nat, k + d - 1 = (d - 1) + k := by intro k; omega
  rw [hk (n * d), Nat.add_mul_div_right _ _ hd, Nat.div_eq_of_lt (by omega)]
  omega

theorem dayNumber_whole_days (a e : Int) :
    calculateDayNumber (some (a * (msPerDay : Int))) (some (e * (msPerDay : Int))) =
      (e - a).natAbs + 1 := by
  have h : e * (msPerDay : Int) - a * (msPerDay : Int) = (e - a) * (msPerDay : Int) := by
    ring
  show natCeilDiv (e * (msPerDay : Int) - a * (msPerDay : Int)).natAbs msPerDay + 1 = _
  rw [h, Int.natAbs_mul, Int.natAbs_ofNat,
    natCeilDiv_mul_self _ _ (by norm_num [msPerDay])]

/-- C4: for whole-day timestamps (millisecond values of `YYYY-MM-DD` dates),
the computed day number is `|entryDate - admissionDate| in days + 1`, which is
the ceiling formula since the difference is a whole number of days; it is 1
when the two dates coincide and grows by exactly 1 per elapsed day when the
entry date is on or after the admission date. -/
theorem c4_day_number :
    (∀ a e : Int,
      calculateDayNumber (some (a * (msPerDay : Int))) (some (e * (msPerDay : Int))) =
        (e - a).natAbs + 1) ∧
    (∀ a : Int, calculateDayNumber (some a) (some a) = 1) ∧
    (∀ a e : Int, a ≤ e →
      calculateDayNumber (some (a * (msPerDay : Int))) (some ((e + 1) * (msPerDay : Int))) =
        calculateDayNumber (some (a * (msPerDay : Int))) (some (e * (msPerDay : Int))) + 1) := by
  refine ⟨dayNumber_whole_days, fun a => ?_, fun a e hae => ?_⟩
  · simp [calculateDayNumber, natCeilDiv, msPerDay]
  · rw [dayNumber_whole_days, dayNumber_whole_days]
    omega

/-- Witness for C4: one day after admission the day number is 2, one more
than on the admission day. -/
theorem c4_day_number_witness :
    calculateDayNumber (some ((0 : Int) * (msPerDay : Int)))
        (some (((0 : Int) + 1) * (msPerDay : Int))) =
      calculateDayNumber (some ((0 : Int) * (msPerDay : Int)))
        (some ((0 : Int) * (msPerDay : Int))) + 1 :=
  c4_day_number.2.2 0 0 (by norm_num)

theorem jsRound_intCast (z : Int) : jsRound ((z : ℚ)) = z := by
  unfold jsRound
  rw [Int.floor_int_add]
  norm_num

theorem calculateCompliance_spec (f : ClabsiFormData) :
    calculateCompliance f =
      jsRound (100 * (completedComponents f : ℚ) / (applicableDenominator f : ℚ)) := by
  unfold calculateCompliance completedComponents applicableDenominator
  cases hb : (calculateDayNumber f.admissionDate f.entryDate == 1) with
  | false =>
    simp only [hb, Bool.false_and, if_false, if_true]
    norm_num
    congr 1
    ring
  | true =>
    simp only [hb, Bool.true_and, if_false, if_true]
    norm_num
    congr 1
    ring

/-- C3: the compliance score equals `round(100 × completedComponents /
applicableDenominator)` where the denominator is 5 components on day 1
(skin-prep counted) and 4 on all other days; day 1 with 4 of 5 applicable
components checked scores 80, and day 2 or later with 4 of 4 checked scores
100. -/
theorem c3_compliance :
    (∀ f : ClabsiFormData,
      calculateCompliance f =
        jsRound (100 * (completedComponents f : ℚ) / (applicableDenominator f : ℚ))) ∧
    (∀ f : ClabsiFormData, calculateDayNumber f.admissionDate f.entryDate = 1 →
      completedComponents f = 4 → calculateCompliance f = 80) ∧
    (∀ f : ClabsiFormData, calculateDayNumber f.admissionDate f.entryDate ≠ 1 →
      completedComponents f = 4 → calculateCompliance f = 100) := by
  refine ⟨calculateCompliance_spec, fun f h1 h2 => ?_, fun f h1 h2 => ?_⟩
  · rw [calculateCompliance_spec f, h2]
    have hd : applicableDenominator f = 5 := by
      unfold applicableDenominator
      simp [h1]
    rw [hd]
    rw [show (100 * ((4 : Nat) : ℚ) / ((5 : Nat) : ℚ)) = (((80 : Int) : ℚ)) by norm_num]
    exact jsRound_intCast 80
  · rw [calculateCompliance_spec f, h2]
    have hd : applicableDenominator f = 4 := by
      unfold applicableDenominator
      simp [h1]
    rw [hd]
    rw [show (100 * ((4 : Nat) : ℚ) / ((4 : Nat) : ℚ)) = (((100 : Int) : ℚ)) by norm_num]
    exact jsRound_intCast 100

/-- Witness for C3: a day-1 entry with the four non-skin-prep components
checked scores 80, and a day-2 entry with the same four checked scores 100. -/
theorem c3_compliance_witness :
    calculateCompliance
      { patientId := "PT1", admissionDate := some 0, admissionShift := some ShiftType.M,
        dischargeDate := none, dischargeShift := none, dischargeType := none,
        entryDate := some 0, shift := some ShiftType.M,
        skinPrep2CHG := false, dressingChangeDaily := true, patencyLumens := true,
        hubCareAlcohol := true, ivTubingChangeDaily := true } = 80 ∧
    calculateCompliance
      { patientId := "PT1", admissionDate := some 0, admissionShift := some ShiftType.M,
        dischargeDate := none, dischargeShift := none, dischargeType := none,
        entryDate := some 86400000, shift := some ShiftType.M,
        skinPrep2CHG := false, dressingChangeDaily := true, patencyLumens := true,
        hubCareAlcohol := true, ivTubingChangeDaily := true } = 100 := by
  constructor
  · exact c3_compliance.2.1 _ (by decide) (by decide)
  · exact c3_compliance.2.2 _ (by decide) (by decide)

/-- C5: a bundle submission whose (patientId, entryDate, shift) triple already
occurs among the loaded saved entries never reaches the insert call; and when
the remaining required fields are filled it is rejected with the duplicate
message. -/
theorem c5_duplicate_rejected :
    ∀ (saved : List ClabsiEntry) (f : ClabsiFormData) (userId : String)
      (dept : DepartmentType) (nurse : String) (e : ClabsiEntry),
      e ∈ saved → e.patient_id = f.patientId → some e.entry_date = f.entryDate →
      some e.shift = f.shift →
      (∀ entry : ClabsiEntryInsert,
        bundleHandleSubmit saved f userId dept nurse ≠
          BundleSubmitOutcome.inserted entry) ∧
      (f.patientId ≠ "" → f.admissionDate ≠ none → f.admissionShift ≠ none →
        bundleHandleSubmit saved f userId dept nurse =
          BundleSubmitOutcome.rejected
            ("Entry for " ++ shiftLabel e.shift ++ " shift on this date already exists.")) := by
  intro saved f userId dept nurse e hmem hpid hdate hshift
  have hdup : (getEnteredShifts saved f).any (fun sh => decide (some sh = f.shift)) = true := by
    rw [List.any_eq_true]
    refine ⟨e.shift, ?_, by simp [hshift]⟩
    unfold getEnteredShifts
    rw [List.mem_map]
    exact ⟨e, List.mem_filter.mpr ⟨hmem, by simp [hpid, hdate]⟩, rfl⟩
  have hfshift : f.shift = some e.shift := hshift.symm
  constructor
  · intro entry
    unfold bundleHandleSubmit
    by_cases hreq : (f.patientId = "" ∨ f.entryDate = none ∨ f.shift = none ∨
        f.admissionDate = none ∨ f.admissionShift = none)
    · rw [if_pos hreq]
      simp
    · rw [if_neg hreq, if_pos hdup]
      simp
  · intro h1 h2 h3
    unfold bundleHandleSubmit
    rw [if_neg, if_pos hdup, hfshift]
    intro hor
    rcases hor with h | h | h | h | h
    · exact h1 h
    · rw [h] at hdate; exact absurd hdate (by simp)
    · rw [h] at hfshift; exact absurd hfshift (by simp)
    · exact h2 h
    · exact h3 h

/-- Witness for C5 at a one-entry saved list and a form repeating its
(patient, date, shift) triple. -/
theorem c5_duplicate_rejected_witness :
    bundleHandleSubmit
      [{ id := "1", patient_id := "PT1", admission_date := 0,
         admission_shift := ShiftType.M, discharge_date := none,
         discharge_shift := none, discharge_type := none, entry_date := 0,
         shift := ShiftType.M, day_number := 1, skin_prep_2chg := false,
         dressing_change_daily := false, patency_lumens := false,
         hub_care_alcohol := false, iv_tubing_change_daily := false,
         compliance_score := 0, created_by := "u1",
         department := DepartmentType.ICU, nurse_name := "N" }]
      { patientId := "PT1", admissionDate := some 0,
        admissionShift := some ShiftType.M, dischargeDate := none,
        dischargeShift := none, dischargeType := none, entryDate := some 0,
        shift := some ShiftType.M, skinPrep2CHG := false,
        dressingChangeDaily := false, patencyLumens := false,
        hubCareAlcohol := false, ivTubingChangeDaily := false }
      "u1" DepartmentType.ICU "N" =
      BundleSubmitOutcome.rejected
        ("Entry for " ++ shiftLabel ShiftType.M ++ " shift on this date already exists.") :=
  (c5_duplicate_rejected
    [{ id := "1", patient_id := "PT1", admission_date := 0,
       admission_shift := ShiftType.M, discharge_date := none,
       discharge_shift := none, discharge_type := none, entry_date := 0,
       shift := ShiftType.M, day_number := 1, skin_prep_2chg := false,
       dressing_change_daily := false, patency_lumens := false,
       hub_care_alcohol := false, iv_tubing_change_daily := false,
       compliance_score := 0, created_by := "u1",
       department := DepartmentType.ICU, nurse_name := "N" }]
    { patientId := "PT1", admissionDate := some 0,
      admissionShift := some ShiftType.M, dischargeDate := none,
      dischargeShift := none, dischargeType := none, entryDate := some 0,
      shift := some ShiftType.M, skinPrep2CHG := false,
      dressingChangeDaily := false, patencyLumens := false,
      hubCareAlcohol := false, ivTubingChangeDaily := false }
    "u1" DepartmentType.ICU "N"
    { id := "1", patient_id := "PT1", admission_date := 0,
      admission_shift := ShiftType.M, discharge_date := none,
      discharge_shift := none, discharge_type := none, entry_date := 0,
      shift := ShiftType.M, day_number := 1, skin_prep_2chg := false,
      dressing_change_daily := false, patency_lumens := false,
      hub_care_alcohol := false, iv_tubing_change_daily := false,
      compliance_score := 0, created_by := "u1",
      department := DepartmentType.ICU, nurse_name := "N" }
    (by simp) rfl rfl rfl).2 (by decide) (by decide) (by decide)

/-- C6: from every starting provider state, and whether or not the remote
sign-out call fails, running `signOut` ends with user, profile and error all
cleared, and each of those clears occurs strictly before the redirect to the
login page in the event sequence. -/
theorem c6_signout_unauthenticated :
    ∀ (s : AuthState) (remoteFails : Bool),
      (runSignOut s remoteFails).user = none ∧
      (runSignOut s remoteFails).profile = none ∧
      (runSignOut s remoteFails).error = none ∧
      SignOutEvent.setUser none ∈ beforeRedirect remoteFails ∧
      SignOutEvent.setProfile none ∈ beforeRedirect remoteFails ∧
      SignOutEvent.setError none ∈ beforeRedirect remoteFails ∧
      SignOutEvent.redirect "/login" ∈ signOutTrace remoteFails := by
  intro s remoteFails
  cases remoteFails <;>
    exact ⟨rfl, rfl, rfl, by decide, by decide, by decide, by decide⟩

/-- C7 counterexample: a non-numeric age input is rejected by the schema with
a NaN type error — it does not default to zero — and a non-integral
non-negative value is accepted as is, so the coercion is not to an integer. -/
theorem c7_age_counterexample :
    mdrAgeParse AgeInput.malformed = Except.error "Expected number, received nan" ∧
    mdrAgeParse AgeInput.malformed ≠ Except.ok 0 ∧
    mdrAgeParse (AgeInput.numStr (3 / 2)) = Except.ok (3 / 2) := by
  refine ⟨rfl, by simp [mdrAgeParse, jsNumber], ?_⟩
  unfold mdrAgeParse jsNumber
  norm_num

/-- C7 amended: the age pipeline coerces with JS `Number(...)`: a missing
(undefined) field defaults to 0 (and the empty string coerces to 0); any
coerced non-negative number — not necessarily an integer — is accepted
unchanged; negative values are rejected with the refinement message; and
non-numeric input coercing to NaN is rejected with a type error rather than
defaulting to zero. -/
theorem c7_age_amended :
    mdrAgeParse AgeInput.undef = Except.ok 0 ∧
    (∀ q : ℚ, 0 ≤ q → mdrAgeParse (AgeInput.numStr q) = Except.ok q) ∧
    (∀ q : ℚ, q < 0 →
      mdrAgeParse (AgeInput.numStr q) = Except.error "Age cannot be negative") ∧
    mdrAgeParse AgeInput.malformed = Except.error "Expected number, received nan" := by
  refine ⟨rfl, fun q hq => ?_, fun q hq => ?_, rfl⟩
  · unfold mdrAgeParse jsNumber
    simp [hq]
  · unfold mdrAgeParse jsNumber
    simp [not_le.mpr hq]

/-- Witness for C7 amended at ages 3 and -1. -/
theorem c7_age_amended_witness :
    mdrAgeParse (AgeInput.numStr 3) = Except.ok 3 ∧
    mdrAgeParse (AgeInput.numStr (-1)) = Except.error "Age cannot be negative" :=
  ⟨c7_age_amended.2.1 3 (by norm_num), c7_age_amended.2.2.1 (-1) (by norm_num)⟩

/-- Witness for C9: an admin profile is granted CLABSI_BUNDLE access, via the
privileged-roles characterization. -/
theorem c9_clabsi_bundle_privileged_only_witness :
    canAccessForm
      (some { id := "a1", email := "a@h", full_name := "A",
              department := DepartmentType.RADIOLOGY, role := UserRole.ADMIN,
              is_active := some true }) FormType.CLABSI_BUNDLE = true :=
  (c9_clabsi_bundle_privileged_only.2.2
    { id := "a1", email := "a@h", full_name := "A",
      department := DepartmentType.RADIOLOGY, role := UserRole.ADMIN,
      is_active := some true }).mpr (Or.inl rfl)
